import Mathlib

/-!
Verification of the PES scoring and advisory engine
(Post-Race-Analysis repository: `app.py`, `pes_utils.py`, `api.py`).

Numbers are modelled as exact rationals (`ℚ`).  A Python dict row is
modelled as a structure of `Option PyVal` fields: `none` is a missing
key, `some .pynone` is a present key holding `None`, `some (.str s)` a
non-numeric value, `some (.num q)` a numeric value.  Code that can raise
an uncaught exception is modelled with `Option`/`Except`.
-/

set_option maxRecDepth 40000

namespace PES

/-- A Python value stored in a telemetry row: a number, `None`, or a
non-numeric string. -/
inductive PyVal where
  | num (q : ℚ)
  | pynone
  | str (s : List Char)
  deriving DecidableEq

/-- A raw input row as `compute_pes` receives it: each of the six fields
may be absent (`none`), or present with any Python value. -/
structure RawRow where
  TirePressure_Front : Option PyVal
  TirePressure_Rear : Option PyVal
  TireSize_Front : Option PyVal
  TireSize_Rear : Option PyVal
  DriverWeight_kg : Option PyVal
  CoolantTemperature_C : Option PyVal
  deriving DecidableEq

/-- A fully numeric telemetry record (the data-model entity of the spec). -/
structure Record where
  TirePressure_Front : ℚ
  TirePressure_Rear : ℚ
  TireSize_Front : ℚ
  TireSize_Rear : ℚ
  DriverWeight_kg : ℚ
  CoolantTemperature_C : ℚ
  deriving DecidableEq

/-- The numeric content of a possibly-absent field: `some q` exactly when
the key is present and holds a number; any other shape (missing key,
`None`, string) makes the arithmetic in `compute_pes` raise, which the
blanket `except` turns into `0`. -/
def numVal? : Option PyVal → Option ℚ
  | some (.num q) => some q
  | _ => none

/-- Embedding of `compute_pes` (`pes_utils.py` lines 1-7 / `app.py` lines
81-87): the score formula inside a blanket `try`/`except` that returns `0`
on any failure (missing key, non-numeric field, or zero denominator, which
raises `ZeroDivisionError` in Python float arithmetic). -/
def compute_pes (row : RawRow) : ℚ :=
  match numVal? row.TireSize_Front, numVal? row.TireSize_Rear,
        numVal? row.TirePressure_Front, numVal? row.TirePressure_Rear,
        numVal? row.CoolantTemperature_C, numVal? row.DriverWeight_kg with
  | some sf, some sr, some pf, some pr, some c, some w =>
    let avg_tire_size := (sf + sr) / 2
    let avg_pressure := (pf + pr) / 2
    if c * w * avg_tire_size = 0 then 0
    else (1 / (c * w * avg_tire_size)) * (1 + avg_pressure / 30)
  | _, _, _, _, _, _ => 0

/-- The score formula itself, on six named numeric fields. -/
def pes_formula (c w sf sr pf pr : ℚ) : ℚ :=
  (1 / (c * w * ((sf + sr) / 2))) * (1 + ((pf + pr) / 2) / 30)

/-- A numeric record viewed as a raw row (all six keys present, numeric). -/
def rawOfRecord (r : Record) : RawRow :=
  ⟨some (.num r.TirePressure_Front), some (.num r.TirePressure_Rear),
   some (.num r.TireSize_Front), some (.num r.TireSize_Rear),
   some (.num r.DriverWeight_kg), some (.num r.CoolantTemperature_C)⟩

/-- Embedding of `estimate_lap_time` (`app.py` lines 89-90). -/
def estimate_lap_time (pes : ℚ) : ℚ :=
  180 - pes * 100000

/-- Embedding of `calculate_distance_and_speed` (`app.py` lines 92-95).
The division `distance_km / (lap_time_sec / 3600)` raises
`ZeroDivisionError` when the divisor is zero and nothing catches it, so
the function is modelled as returning `none` exactly there. -/
def calculate_distance_and_speed (lap_time_sec : ℚ) : Option (ℚ × ℚ) :=
  let distance_km : ℚ := 13.626
  if lap_time_sec / 3600 = 0 then none
  else some (distance_km, distance_km / (lap_time_sec / 3600))

/-- An advisory message from `suggest_adjustments`, abstracted to its
branch and the numeric facts it carries (label, offending value, bounds);
the fixed emoji and unit decorations of the literal message strings are
elided.  `adjustTires` carries the front/rear values printed in the
combined message; they are `Option ℚ` because a parsed row can hold
`None` there and Python happily formats it. -/
inductive Advisory where
  | tooLow (label : String) (value minVal maxVal : ℚ)
  | tooHigh (label : String) (value minVal maxVal : ℚ)
  | optimal (label : String) (value minVal maxVal : ℚ)
  | adjustTires (front rear : Option ℚ)
  | tiresOptimal
  deriving DecidableEq

/-- Embedding of the inner `format_range` helper of `suggest_adjustments`
(`pes_utils.py` lines 12-18): `value < min_val`, `elif value > max_val`,
`else` optimal. -/
def format_range (value minVal maxVal : ℚ) (label : String) : Advisory :=
  if value < minVal then .tooLow label value minVal maxVal
  else if maxVal < value then .tooHigh label value minVal maxVal
  else .optimal label value minVal maxVal

/-- A row as produced by `parse_row`: every key present, each value a
float or `None` (plus the seventh `PES` key). -/
structure ParsedRow where
  TirePressure_Front : Option ℚ
  TirePressure_Rear : Option ℚ
  TireSize_Front : Option ℚ
  TireSize_Rear : Option ℚ
  DriverWeight_kg : Option ℚ
  CoolantTemperature_C : Option ℚ
  PES : Option ℚ
  deriving DecidableEq

/-- A comparison or addition on a field that is `None` raises `TypeError`
in Python; this extracts the number or signals that error. -/
def expectNum : Option ℚ → Except Unit ℚ
  | some q => .ok q
  | none => .error ()

/-- Embedding of `suggest_adjustments` (`pes_utils.py` lines 9-32) on a
parsed row.  The range checks on coolant, weight and average pressure
raise `TypeError` on a `None` field (modelled as `.error ()`); the tire
equality test `front != 305 or rear != 305` is defined for `None` too
(in Python `None != 305` is simply `True`). -/
def suggest_adjustmentsRaw (row : ParsedRow) : Except Unit (List Advisory) := do
  let c ← expectNum row.CoolantTemperature_C
  let a1 := format_range c 85 95 "Coolant Temperature"
  let w ← expectNum row.DriverWeight_kg
  let a2 := format_range w 68 72 "Driver Weight"
  let a3 := if row.TireSize_Front ≠ some 305 ∨ row.TireSize_Rear ≠ some 305 then
      Advisory.adjustTires row.TireSize_Front row.TireSize_Rear
    else Advisory.tiresOptimal
  let pf ← expectNum row.TirePressure_Front
  let pr ← expectNum row.TirePressure_Rear
  let a4 := format_range ((pf + pr) / 2) 21.5 22.5 "Average Tire Pressure"
  return [a1, a2, a3, a4]

/-- A numeric record viewed as a parsed row (`PES` placeholder 0, as in
`api.py` line 28). -/
def rowOfRecord (r : Record) : ParsedRow :=
  ⟨some r.TirePressure_Front, some r.TirePressure_Rear,
   some r.TireSize_Front, some r.TireSize_Rear,
   some r.DriverWeight_kg, some r.CoolantTemperature_C, some 0⟩

/-- A parsed row viewed as a raw row for `compute_pes` (every key present;
values are floats or `None`). -/
def rawOfParsed (p : ParsedRow) : RawRow :=
  ⟨p.TirePressure_Front.map .num |>.orElse fun _ => some .pynone,
   p.TirePressure_Rear.map .num |>.orElse fun _ => some .pynone,
   p.TireSize_Front.map .num |>.orElse fun _ => some .pynone,
   p.TireSize_Rear.map .num |>.orElse fun _ => some .pynone,
   p.DriverWeight_kg.map .num |>.orElse fun _ => some .pynone,
   p.CoolantTemperature_C.map .num |>.orElse fun _ => some .pynone⟩

/-! Text serialization (`row_to_text`, `app.py` lines 33-43) and pattern
extraction (`parse_row`, `app.py` lines 66-79), modelled over `List Char`. -/

/-- The character class `[\d.]` of the six telemetry extraction patterns. -/
def isDigitDot (c : Char) : Bool :=
  c.isDigit || c == '.'

/-- The character class `[\d.eE+-]` of the `PES` extraction pattern. -/
def isPESChar (c : Char) : Bool :=
  c.isDigit || c == '.' || c == 'e' || c == 'E' || c == '+' || c == '-'

/-- Numeric value of a digit character. -/
def digitVal (c : Char) : Nat :=
  c.toNat - 48

/-- The natural number denoted by a string of digit characters. -/
def digitsToNat (s : List Char) : Nat :=
  s.foldl (fun a c => 10 * a + digitVal c) 0

/-- Python `float()` applied to a string drawn from `[0-9.]`: accepted
exactly when it has at least one digit and at most one dot (so `"22.0"`,
`"305"`, `".5"`, `"1."` parse and `"."` or `"1.2.3"` raise `ValueError`). -/
def pyFloat? (s : List Char) : Option ℚ :=
  if s.all isDigitDot && s.any Char.isDigit then
    match s.splitOn '.' with
    | [ip] => some (digitsToNat ip)
    | [ip, fp] => some ((digitsToNat ip : ℚ) + (digitsToNat fp : ℚ) / 10 ^ fp.length)
    | _ => none
  else none

/-- Strip one optional leading sign, returning whether it was a minus. -/
def stripSign : List Char → Bool × List Char
  | '+' :: t => (false, t)
  | '-' :: t => (true, t)
  | t => (false, t)

/-- Python `float()` applied to a string drawn from `[0-9.eE+-]`:
an optional sign, a mantissa of digits with at most one dot and at least
one digit, and an optional exponent marker `e`/`E` followed by an
optional sign and at least one digit. -/
def pyFloatSci? (s : List Char) : Option ℚ :=
  let (neg, s1) := stripSign s
  match s1.splitOnP (fun c => c == 'e' || c == 'E') with
  | [m] => (pyFloat? m).map fun q => if neg then -q else q
  | [m, e] =>
    match pyFloat? m with
    | none => none
    | some q =>
      let (eneg, ed) := stripSign e
      if ed.isEmpty then none
      else if ed.all Char.isDigit then
        let p : ℚ := (10 : ℚ) ^ digitsToNat ed
        some ((if neg then -q else q) * (if eneg then 1 / p else p))
      else none
  | _ => none

instance {ε α : Type} [DecidableEq ε] [DecidableEq α] : DecidableEq (Except ε α)
  | .error e, .error f =>
    if h : e = f then .isTrue (by rw [h]) else .isFalse (by simp [h])
  | .error _, .ok _ => .isFalse (by simp)
  | .ok _, .error _ => .isFalse (by simp)
  | .ok a, .ok b =>
    if h : a = b then .isTrue (by rw [h]) else .isFalse (by simp [h])

/-- One attempted match of the pattern `lit ++ cls+` at the head of `t`
(`cls` a character class): if `lit` is a literal prefix of `t` and at
least one class character follows, the greedy capture group is the
maximal run of class characters after `lit`. -/
def capture (cls : Char → Bool) (lit t : List Char) : Option (List Char) :=
  if lit.isPrefixOf t then
    match (t.drop lit.length).takeWhile cls with
    | [] => none
    | c :: cs => some (c :: cs)
  else none

/-- `re.search` for the pattern `lit ++ cls+`: try every position left to
right and return the first capture group. -/
def re_search (cls : Char → Bool) (lit : List Char) : List Char → Option (List Char)
  | [] => none
  | c :: rest =>
    match capture cls lit (c :: rest) with
    | some cap => some cap
    | none => re_search cls lit rest

/-- One field of `parse_row`: `None` when the pattern does not match,
the parsed float on a match, and an uncaught `ValueError` (`.error`)
when the captured text is not a valid float (e.g. `"1.2.3"`). -/
def extractField (cls : Char → Bool) (pyF : List Char → Option ℚ)
    (lit text : List Char) : Except Unit (Option ℚ) :=
  match re_search cls lit text with
  | none => .ok none
  | some s =>
    match pyF s with
    | some q => .ok (some q)
    | none => .error ()

/-- The literal part of each extraction pattern of `parse_row`. -/
def litTPF : List Char := "Tire Pressure Front: ".toList

def litTPR : List Char := "Tire Pressure Rear: ".toList

def litTSF : List Char := "Tire Size Front: ".toList

def litTSR : List Char := "Tire Size Rear: ".toList

def litDW : List Char := "Driver Weight: ".toList

def litCT : List Char := "Coolant Temperature: ".toList

def litPES : List Char := "PES: ".toList

/-- Embedding of `parse_row` (`app.py` lines 66-79): extract the six
telemetry fields with `([\d.]+)` and the `PES` field with
`([\d.eE+-]+)`; a field with no match is `None`, and an invalid captured
float raises `ValueError` out of `parse_row` (`.error`). -/
def parse_row (text : List Char) : Except Unit ParsedRow :=
  match extractField isDigitDot pyFloat? litTPF text,
        extractField isDigitDot pyFloat? litTPR text,
        extractField isDigitDot pyFloat? litTSF text,
        extractField isDigitDot pyFloat? litTSR text,
        extractField isDigitDot pyFloat? litDW text,
        extractField isDigitDot pyFloat? litCT text,
        extractField isPESChar pyFloatSci? litPES text with
  | .ok a, .ok b, .ok c, .ok d, .ok e, .ok f, .ok g => .ok ⟨a, b, c, d, e, f, g⟩
  | _, _, _, _, _, _, _ => .error ()

/-- Embedding of `row_to_text` (`app.py` lines 33-43), parameterized by
the float formatting function `render` (Python `str` inside the
f-string); `coolantType` is the row's `CoolantType` string and `pes` its
`PES` value. -/
def row_to_text (render : ℚ → List Char) (r : Record)
    (coolantType : List Char) (pes : ℚ) : List Char :=
  litTPF ++ (render r.TirePressure_Front ++
  (" bar, ".toList ++ (litTPR ++ (render r.TirePressure_Rear ++
  (" bar, ".toList ++ (litTSF ++ (render r.TireSize_Front ++
  (", ".toList ++ (litTSR ++ (render r.TireSize_Rear ++
  (", ".toList ++ (litDW ++ (render r.DriverWeight_kg ++
  (" kg, ".toList ++ (litCT ++ (render r.CoolantTemperature_C ++
  (" °C, ".toList ++ ("Coolant Type: ".toList ++ (coolantType ++
  (", ".toList ++ (litPES ++ render pes)))))))))))))))))))))

/-- The decimal digit character for `n < 10`. -/
def digitChar (n : Nat) : Char :=
  Char.ofNat (48 + n)

/-- Decimal digits of a positive natural number (fuel-recursive). -/
def natDigitsAux : Nat → Nat → List Char
  | 0, _ => []
  | _ + 1, 0 => []
  | fuel + 1, n => natDigitsAux fuel (n / 10) ++ [digitChar (n % 10)]

/-- Decimal digits of a natural number. -/
def natDigits (n : Nat) : List Char :=
  if n = 0 then ['0'] else natDigitsAux n n

/-- Fractional decimal digits of `r / d` (long division, fuel-bounded). -/
def fracDigitsAux : Nat → Nat → Nat → List Char
  | 0, _, _ => []
  | _ + 1, 0, _ => []
  | fuel + 1, r, d => digitChar (r * 10 / d) :: fracDigitsAux fuel (r * 10 % d) d

/-- Modelled from the spec: Python's default `str` formatting of a float
with a terminating decimal expansion, in positional notation — an
optional minus sign, the integer digits, a dot, and the fractional
digits (at least one, so `str(22.0) = "22.0"`).  Values whose Python
formatting uses scientific notation are outside this renderer. -/
def pyStr (q : ℚ) : List Char :=
  let sign : List Char := if q < 0 then ['-'] else []
  let n := q.num.natAbs
  let d := q.den
  let frac := fracDigitsAux 64 (n % d) d
  sign ++ natDigits (n / d) ++ '.' :: (if frac.isEmpty then ['0'] else frac)

/-! The retrieval pipeline `rag_query_pipeline` (`app.py` lines 123-139).
The similarity search is an external collaborator, so the pipeline is
modelled as a function of the list of retrieved passages. -/

/-- How a run of the retrieval pipeline can die with an uncaught Python
exception. -/
inductive PipeError where
  | indexError
  | valueError
  | typeError
  | zeroDivision
  deriving DecidableEq

/-- The dictionary returned by `rag_query_pipeline`. -/
structure PipeResult where
  context : List Char
  row : ParsedRow
  pes : ℚ
  lap_time : ℚ
  distance : ℚ
  speed : ℚ
  suggestions : List Advisory
  deriving DecidableEq

/-- Embedding of `rag_query_pipeline` (`app.py` lines 123-139):
`context_passages[0]` raises `IndexError` on an empty search result;
`parse_row` may raise `ValueError`; the parsed row (fields possibly
`None`) is passed to `compute_pes` and `suggest_adjustments` (which may
raise `TypeError`); then lap time, distance and speed are derived. -/
def rag_query_pipeline (context_passages : List (List Char)) :
    Except PipeError PipeResult :=
  match context_passages with
  | [] => .error .indexError
  | p :: _ =>
    match parse_row p with
    | .error _ => .error .valueError
    | .ok parsed =>
      let pes := compute_pes (rawOfParsed parsed)
      match suggest_adjustmentsRaw parsed with
      | .error _ => .error .typeError
      | .ok suggestions =>
        let lap_time := estimate_lap_time pes
        match calculate_distance_and_speed lap_time with
        | none => .error .zeroDivision
        | some (distance, speed) =>
          .ok ⟨p, parsed, pes, lap_time, distance, speed, suggestions⟩

/-- A decidable sufficient condition for the pattern `lit ++ cls+` not to
match at a position whose remaining text is `s ++ b` for arbitrary `b`:
either `s` is at least as long as `lit` and `lit` is not its literal
prefix, or `s` is shorter and disagrees with the corresponding initial
segment of `lit`. -/
def skipCondB (lit s : List Char) : Bool :=
  if s.length < lit.length then lit.take s.length != s else !(lit.isPrefixOf s)

/-- The serialization of the record (-22, 22, 305, 305, 70, 90) with
coolant type `Water` and PES 0, under Python float formatting. -/
def cexText : List Char :=
  ("Tire Pressure Front: -22.0 bar, Tire Pressure Rear: 22.0 bar, " ++
   "Tire Size Front: 305.0, Tire Size Rear: 305.0, Driver Weight: 70.0 kg, " ++
   "Coolant Temperature: 90.0 °C, Coolant Type: Water, PES: 0.0").toList

/-- A retrieved passage in the serialization format but with the two
tire-size fields absent: `parse_row` yields `None` for both sizes. -/
def sizelessPassage : List Char :=
  ("Tire Pressure Front: 22 bar, Tire Pressure Rear: 22 bar, " ++
   "Driver Weight: 70 kg, Coolant Temperature: 90 C").toList

/-- The result `rag_query_pipeline` produces on `sizelessPassage`: the
null-size row is fed through the engine, giving score 0, lap time 180,
and a tire advisory naming `None/None`. -/
def sizelessResult : PipeResult :=
  ⟨sizelessPassage,
   ⟨some 22, some 22, none, none, some 70, some 90, none⟩,
   0, 180, 13.626, 272.52,
   [Advisory.optimal "Coolant Temperature" 90 85 95,
    Advisory.optimal "Driver Weight" 70 68 72,
    Advisory.adjustTires none none,
    Advisory.optimal "Average Tire Pressure" 22 21.5 22.5]⟩

/-! Helper lemmas about the pattern matcher. -/

theorem isPrefixOf_spec (l t : List Char) : l.isPrefixOf t = true ↔ ∃ u, l ++ u = t := by
  induction l generalizing t with
  | nil => simp [List.isPrefixOf]
  | cons c l ih =>
    cases t with
    | nil => simp [List.isPrefixOf]
    | cons d t => simp [List.isPrefixOf, ih, List.cons_append, exists_and_left]

theorem capture_none_of_skipCond (cls : Char → Bool) (lit s b : List Char)
    (h : skipCondB lit s = true) : capture cls lit (s ++ b) = none := by
  have hnp : ¬ lit.isPrefixOf (s ++ b) = true := by
    intro hp
    obtain ⟨u, hu⟩ := (isPrefixOf_spec _ _).mp hp
    rw [skipCondB] at h
    split at h
    case isTrue hlen =>
      have h1 : (lit ++ u).take s.length = lit.take s.length :=
        List.take_append_of_le_length (le_of_lt hlen)
      rw [hu, List.take_left] at h1
      exact bne_iff_ne.mp h h1.symm
    case isFalse hlen =>
      have hle : lit.length ≤ s.length := le_of_not_lt hlen
      have h1 : (lit ++ u).take lit.length = lit := List.take_left _ _
      rw [hu, List.take_append_of_le_length hle] at h1
      have hps : lit.isPrefixOf s = true := by
        refine (isPrefixOf_spec _ _).mpr ⟨s.drop lit.length, ?_⟩
        nth_rewrite 1 [← h1]
        exact List.take_append_drop _ _
      simp [hps] at h
  rw [capture, if_neg hnp]

theorem re_search_append_skip (cls : Char → Bool) (lit a b : List Char)
    (h : ∀ s ∈ a.tails, s ≠ [] → skipCondB lit s = true) :
    re_search cls lit (a ++ b) = re_search cls lit b := by
  induction a with
  | nil => rw [List.nil_append]
  | cons c a ih =>
    have hc : capture cls lit ((c :: a) ++ b) = none :=
      capture_none_of_skipCond cls lit (c :: a) b
        (h (c :: a) (by rw [List.tails_cons]; exact List.mem_cons_self _ _) (by simp))
    rw [List.cons_append] at hc
    rw [List.cons_append, re_search, hc]
    exact ih fun s hs hne =>
      h s (by rw [List.tails_cons]; exact List.mem_cons_of_mem _ hs) hne

theorem re_search_skip_of_head_ne (cls : Char → Bool) (lit n b : List Char) (c₀ : Char)
    (hhead : lit.head? = some c₀) (hn : ∀ c ∈ n, ¬ c = c₀) :
    re_search cls lit (n ++ b) = re_search cls lit b := by
  induction n with
  | nil => rw [List.nil_append]
  | cons d n ih =>
    have hc : capture cls lit (d :: (n ++ b)) = none := by
      cases lit with
      | nil => exact absurd hhead (by simp)
      | cons e lt =>
        have he : e = c₀ := by simpa using hhead
        rw [capture, if_neg]
        intro hp
        obtain ⟨u, hu⟩ := (isPrefixOf_spec _ _).mp hp
        rw [List.cons_append] at hu
        injection hu with h1 _
        exact hn d (by simp) (by rw [← h1, he])
    rw [List.cons_append, re_search, hc]
    exact ih fun c hc' => hn c (List.mem_cons_of_mem _ hc')

theorem takeWhile_append_all (p : Char → Bool) (n rest : List Char)
    (hn : ∀ c ∈ n, p c = true) :
    (n ++ rest).takeWhile p = n ++ rest.takeWhile p := by
  induction n with
  | nil => rw [List.nil_append, List.nil_append]
  | cons c t ih =>
    rw [List.cons_append, List.takeWhile_cons, if_pos (hn c (by simp)),
      ih fun c hc => hn c (by simp [hc]), List.cons_append]

theorem takeWhile_head_false (p : Char → Bool) (rest : List Char)
    (hrest : ∀ c, rest.head? = some c → p c = false) :
    rest.takeWhile p = [] := by
  cases rest with
  | nil => rfl
  | cons c t => rw [List.takeWhile_cons, if_neg (by simp [hrest c rfl])]

theorem re_search_found (cls : Char → Bool) (lit n rest : List Char)
    (hlit : lit ≠ []) (hn : n ≠ []) (hncls : ∀ c ∈ n, cls c = true)
    (hrest : ∀ c, rest.head? = some c → cls c = false) :
    re_search cls lit (lit ++ (n ++ rest)) = some n := by
  have hpre : lit.isPrefixOf (lit ++ (n ++ rest)) = true :=
    (isPrefixOf_spec _ _).mpr ⟨n ++ rest, rfl⟩
  have hdrop : (lit ++ (n ++ rest)).drop lit.length = n ++ rest := List.drop_left _ _
  have hcap : capture cls lit (lit ++ (n ++ rest)) = some n := by
    rw [capture, if_pos hpre, hdrop, takeWhile_append_all cls n rest hncls,
      takeWhile_head_false cls rest hrest, List.append_nil]
    cases n with
    | nil => exact absurd rfl hn
    | cons n₀ nt => rfl
  cases lit with
  | nil => exact absurd rfl hlit
  | cons c₀ lt =>
    rw [List.cons_append] at hcap ⊢
    rw [re_search, hcap]

theorem digitdot_ne {c c₀ : Char} (hc : isDigitDot c = true)
    (h0 : isDigitDot c₀ = false) : ¬ c = c₀ := by
  intro h
  rw [h, h0] at hc
  exact nomatch hc

theorem digitdot_pes (c : Char) (h : isDigitDot c = true) : isPESChar c = true := by
  simp only [isDigitDot, Bool.or_eq_true] at h
  simp only [isPESChar, Bool.or_eq_true]
  rcases h with h | h
  · exact Or.inl (Or.inl (Or.inl (Or.inl (Or.inl h))))
  · exact Or.inl (Or.inl (Or.inl (Or.inl (Or.inr h))))

theorem pyFloat?_one (s ip : List Char)
    (h : (s.all isDigitDot && s.any Char.isDigit) = true)
    (hsplit : s.splitOn '.' = [ip]) (a : ℕ) (ha : digitsToNat ip = a) :
    pyFloat? s = some (a : ℚ) := by
  rw [pyFloat?, if_pos h, hsplit]
  show some ((digitsToNat ip : ℕ) : ℚ) = _
  rw [ha]

theorem pyFloat?_two (s ip fp : List Char)
    (h : (s.all isDigitDot && s.any Char.isDigit) = true)
    (hsplit : s.splitOn '.' = [ip, fp]) (a b k : ℕ)
    (ha : digitsToNat ip = a) (hb : digitsToNat fp = b) (hk : fp.length = k) :
    pyFloat? s = some ((a : ℚ) + (b : ℚ) / 10 ^ k) := by
  rw [pyFloat?, if_pos h, hsplit]
  show some ((digitsToNat ip : ℚ) + (digitsToNat fp : ℚ) / 10 ^ fp.length) = _
  rw [ha, hb, hk]

theorem pyFloatSci?_plain (s : List Char) (hsign : stripSign s = (false, s))
    (hsplit : s.splitOnP (fun c => c == 'e' || c == 'E') = [s]) :
    pyFloatSci? s = pyFloat? s := by
  simp only [pyFloatSci?, hsign, hsplit]
  cases pyFloat? s <;> simp

theorem head_false_of_cons (p : Char → Bool) (a rest : List Char) (c₀ : Char)
    (hh : a.head? = some c₀) (h0 : p c₀ = false) :
    ∀ d, (a ++ rest).head? = some d → p d = false := by
  intro d hd
  cases a with
  | nil => exact nomatch hh
  | cons e t =>
    rw [List.cons_append, List.head?_cons] at hd
    rw [List.head?_cons] at hh
    injection hd with h1
    injection hh with h2
    rw [← h1, h2]
    exact h0

theorem extractField_eq_of (cls : Char → Bool) (pyF : List Char → Option ℚ)
    (lit text s : List Char) (q : ℚ)
    (hre : re_search cls lit text = some s) (hpf : pyF s = some q) :
    extractField cls pyF lit text = .ok (some q) := by
  simp only [extractField, hre, hpf]

theorem extractField_none_of (cls : Char → Bool) (pyF : List Char → Option ℚ)
    (lit text : List Char) (hre : re_search cls lit text = none) :
    extractField cls pyF lit text = .ok none := by
  simp only [extractField, hre]

theorem parse_row_eq (text : List Char) (a b c d e f g : Option ℚ)
    (h1 : extractField isDigitDot pyFloat? litTPF text = .ok a)
    (h2 : extractField isDigitDot pyFloat? litTPR text = .ok b)
    (h3 : extractField isDigitDot pyFloat? litTSF text = .ok c)
    (h4 : extractField isDigitDot pyFloat? litTSR text = .ok d)
    (h5 : extractField isDigitDot pyFloat? litDW text = .ok e)
    (h6 : extractField isDigitDot pyFloat? litCT text = .ok f)
    (h7 : extractField isPESChar pyFloatSci? litPES text = .ok g) :
    parse_row text = .ok ⟨a, b, c, d, e, f, g⟩ := by
  simp only [parse_row, h1, h2, h3, h4, h5, h6, h7]

theorem pyFloat?_nonneg (s : List Char) (q : ℚ) (h : pyFloat? s = some q) : 0 ≤ q := by
  rw [pyFloat?] at h
  split at h
  · split at h
    · injection h with h'
      rw [← h']
      exact Nat.cast_nonneg _
    · injection h with h'
      rw [← h']
      positivity
    · exact nomatch h
  · exact nomatch h

theorem extractField_digit_nonneg (lit text : List Char) (q : ℚ)
    (h : extractField isDigitDot pyFloat? lit text = .ok (some q)) : 0 ≤ q := by
  rw [extractField] at h
  split at h
  · exact nomatch h
  · rename_i s hre
    split at h
    · rename_i q' hpf
      injection h with h'
      injection h' with h''
      exact h'' ▸ pyFloat?_nonneg s q' hpf
    · exact nomatch h

/-- C1: for a row whose six fields are present and numeric with
`coolant * weight * avg_tire_size` nonzero, `compute_pes` returns exactly
`(1 / (coolant * weight * ((front_size + rear_size) / 2))) *
 (1 + ((front_pressure + rear_pressure) / 2) / 30)`. -/
theorem compute_pes_formula_eq (r : Record)
    (h : r.CoolantTemperature_C * r.DriverWeight_kg *
      ((r.TireSize_Front + r.TireSize_Rear) / 2) ≠ 0) :
    compute_pes (rawOfRecord r) =
      (1 / (r.CoolantTemperature_C * r.DriverWeight_kg *
        ((r.TireSize_Front + r.TireSize_Rear) / 2)))
        * (1 + ((r.TirePressure_Front + r.TirePressure_Rear) / 2) / 30) := by
  simp only [compute_pes, rawOfRecord, numVal?]
  rw [if_neg h]

/-- Witness for C1 at the record (22, 22, 305, 305, 70, 90). -/
theorem compute_pes_formula_eq_witness :
    (90 : ℚ) * 70 * ((305 + 305) / 2) ≠ 0 ∧
    compute_pes (rawOfRecord ⟨22, 22, 305, 305, 70, 90⟩) =
      (1 / ((90 : ℚ) * 70 * ((305 + 305) / 2))) * (1 + ((22 + 22) / 2) / 30) :=
  ⟨by norm_num, compute_pes_formula_eq ⟨22, 22, 305, 305, 70, 90⟩ (by norm_num)⟩

/-- C2: if any of the six fields is missing or non-numeric, or coolant
temperature is 0, or driver weight is 0, or both tire sizes are 0 (so the
division raises), `compute_pes` returns exactly 0. -/
theorem compute_pes_degraded_zero (row : RawRow)
    (h : numVal? row.TirePressure_Front = none ∨
         numVal? row.TirePressure_Rear = none ∨
         numVal? row.TireSize_Front = none ∨
         numVal? row.TireSize_Rear = none ∨
         numVal? row.DriverWeight_kg = none ∨
         numVal? row.CoolantTemperature_C = none ∨
         numVal? row.CoolantTemperature_C = some 0 ∨
         numVal? row.DriverWeight_kg = some 0 ∨
         (numVal? row.TireSize_Front = some 0 ∧ numVal? row.TireSize_Rear = some 0)) :
    compute_pes row = 0 := by
  rcases h1 : numVal? row.TireSize_Front with _ | sf <;>
  rcases h2 : numVal? row.TireSize_Rear with _ | sr <;>
  rcases h3 : numVal? row.TirePressure_Front with _ | pf <;>
  rcases h4 : numVal? row.TirePressure_Rear with _ | pr <;>
  rcases h5 : numVal? row.CoolantTemperature_C with _ | c <;>
  rcases h6 : numVal? row.DriverWeight_kg with _ | w <;>
  simp only [compute_pes, h1, h2, h3, h4, h5, h6] <;>
  simp only [h1, h2, h3, h4, h5, h6, Option.some.injEq, reduceCtorEq,
    false_or, or_false, false_and, and_false] at h ⊢
  rcases h with h | h | ⟨ha, hb⟩
  · subst h; simp
  · subst h; simp
  · subst ha; subst hb; simp

/-- Witness for C2 at a row whose coolant temperature is 0. -/
theorem compute_pes_degraded_zero_witness :
    (numVal? (some (PyVal.num 0)) = some 0) ∧
    compute_pes ⟨some (.num 22), some (.num 22), some (.num 305),
      some (.num 305), some (.num 70), some (.num 0)⟩ = 0 :=
  ⟨rfl, compute_pes_degraded_zero
    ⟨some (.num 22), some (.num 22), some (.num 305),
     some (.num 305), some (.num 70), some (.num 0)⟩ (by simp [numVal?])⟩

/-- C5: `estimate_lap_time` returns exactly `180 - score * 100000`, with
no clamping (negative outputs pass through); in particular
`estimate_lap_time (1/1000) = 80` exactly. -/
theorem estimate_lap_time_contract :
    (∀ score : ℚ, estimate_lap_time score = 180 - score * 100000) ∧
    estimate_lap_time (1 / 1000) = 80 ∧ estimate_lap_time (1 / 100) < 0 :=
  ⟨fun _ => rfl, by norm_num [estimate_lap_time], by norm_num [estimate_lap_time]⟩

/-- C6: for nonzero lap time, `calculate_distance_and_speed` returns
`(13.626, 13.626 / (lap / 3600))`; at lap time 80 the speed is exactly
613.17; at lap time 0 the division by zero surfaces as an explicit error
(`none`) rather than being silently suppressed. -/
theorem calculate_distance_and_speed_contract :
    (∀ lap : ℚ, lap ≠ 0 →
      calculate_distance_and_speed lap = some (13.626, 13.626 / (lap / 3600))) ∧
    calculate_distance_and_speed 80 = some (13.626, 613.17) ∧
    calculate_distance_and_speed 0 = none := by
  refine ⟨fun lap h => ?_, by norm_num [calculate_distance_and_speed], by
    norm_num [calculate_distance_and_speed]⟩
  simp [calculate_distance_and_speed, div_eq_zero_iff, h]

/-- Witness for C6 at lap time 80. -/
theorem calculate_distance_and_speed_contract_witness :
    (80 : ℚ) ≠ 0 ∧
    calculate_distance_and_speed 80 = some (13.626, 13.626 / ((80 : ℚ) / 3600)) :=
  ⟨by norm_num, calculate_distance_and_speed_contract.1 80 (by norm_num)⟩

/-- C9: `compute_pes` is total over arbitrary raw rows: it always returns
a rational, and every failure path (missing key, non-numeric field, zero
denominator) yields 0; otherwise the result is the score formula. -/
theorem compute_pes_total (row : RawRow) :
    compute_pes row = 0 ∨
    ∃ sf sr pf pr c w : ℚ,
      numVal? row.TireSize_Front = some sf ∧ numVal? row.TireSize_Rear = some sr ∧
      numVal? row.TirePressure_Front = some pf ∧ numVal? row.TirePressure_Rear = some pr ∧
      numVal? row.CoolantTemperature_C = some c ∧ numVal? row.DriverWeight_kg = some w ∧
      c * w * ((sf + sr) / 2) ≠ 0 ∧
      compute_pes row = (1 / (c * w * ((sf + sr) / 2))) * (1 + ((pf + pr) / 2) / 30) := by
  rcases h1 : numVal? row.TireSize_Front with _ | sf <;>
  rcases h2 : numVal? row.TireSize_Rear with _ | sr <;>
  rcases h3 : numVal? row.TirePressure_Front with _ | pf <;>
  rcases h4 : numVal? row.TirePressure_Rear with _ | pr <;>
  rcases h5 : numVal? row.CoolantTemperature_C with _ | c <;>
  rcases h6 : numVal? row.DriverWeight_kg with _ | w <;>
  simp only [compute_pes, h1, h2, h3, h4, h5, h6]
  all_goals first
  | exact Or.inl trivial
  | exact Or.inl rfl
  | (by_cases hz : c * w * ((sf + sr) / 2) = 0
     · exact Or.inl (by rw [if_pos hz])
     · exact Or.inr ⟨sf, sr, pf, pr, c, w, rfl, rfl, rfl, rfl, rfl, rfl, hz,
        by rw [if_neg hz]⟩)

/-- C3: on a record with all six numeric fields, `suggest_adjustments`
returns exactly four advisories in the fixed order coolant [85, 95],
weight [68, 72], tire-size equality against 305/305 (otherwise one
combined message naming the current front and rear values), average
pressure [21.5, 22.5]; each range check is "too low" below the minimum,
"too high" above the maximum, and "optimal" inside the closed range. -/
theorem suggest_adjustments_messages (r : Record) :
    suggest_adjustmentsRaw (rowOfRecord r) = .ok
      [ (if r.CoolantTemperature_C < 85 then
           Advisory.tooLow "Coolant Temperature" r.CoolantTemperature_C 85 95
         else if 95 < r.CoolantTemperature_C then
           Advisory.tooHigh "Coolant Temperature" r.CoolantTemperature_C 85 95
         else Advisory.optimal "Coolant Temperature" r.CoolantTemperature_C 85 95),
        (if r.DriverWeight_kg < 68 then
           Advisory.tooLow "Driver Weight" r.DriverWeight_kg 68 72
         else if 72 < r.DriverWeight_kg then
           Advisory.tooHigh "Driver Weight" r.DriverWeight_kg 68 72
         else Advisory.optimal "Driver Weight" r.DriverWeight_kg 68 72),
        (if r.TireSize_Front = 305 ∧ r.TireSize_Rear = 305 then
           Advisory.tiresOptimal
         else Advisory.adjustTires (some r.TireSize_Front) (some r.TireSize_Rear)),
        (if (r.TirePressure_Front + r.TirePressure_Rear) / 2 < 21.5 then
           Advisory.tooLow "Average Tire Pressure"
             ((r.TirePressure_Front + r.TirePressure_Rear) / 2) 21.5 22.5
         else if 22.5 < (r.TirePressure_Front + r.TirePressure_Rear) / 2 then
           Advisory.tooHigh "Average Tire Pressure"
             ((r.TirePressure_Front + r.TirePressure_Rear) / 2) 21.5 22.5
         else Advisory.optimal "Average Tire Pressure"
             ((r.TirePressure_Front + r.TirePressure_Rear) / 2) 21.5 22.5) ] := by
  by_cases h1 : r.TireSize_Front = 305 <;> by_cases h2 : r.TireSize_Rear = 305 <;>
  simp [suggest_adjustmentsRaw, rowOfRecord, expectNum, format_range,
    Bind.bind, Except.bind, Pure.pure, Except.pure, h1, h2]

/-- C4: with all fields positive, the score is strictly positive,
strictly decreasing in coolant temperature, driver weight, and average
tire size, and strictly increasing in average tire pressure (other
fields held fixed); the formula is what `compute_pes` computes there. -/
theorem pes_monotone (c w sf sr pf pr : ℚ)
    (hc : 0 < c) (hw : 0 < w) (hsf : 0 < sf) (hsr : 0 < sr)
    (hpf : 0 < pf) (hpr : 0 < pr) :
    compute_pes (rawOfRecord ⟨pf, pr, sf, sr, w, c⟩) = pes_formula c w sf sr pf pr ∧
    0 < pes_formula c w sf sr pf pr ∧
    (∀ c', c < c' → pes_formula c' w sf sr pf pr < pes_formula c w sf sr pf pr) ∧
    (∀ w', w < w' → pes_formula c w' sf sr pf pr < pes_formula c w sf sr pf pr) ∧
    (∀ sf' sr', 0 < sf' → 0 < sr' → (sf + sr) / 2 < (sf' + sr') / 2 →
      pes_formula c w sf' sr' pf pr < pes_formula c w sf sr pf pr) ∧
    (∀ pf' pr', (pf + pr) / 2 < (pf' + pr') / 2 →
      pes_formula c w sf sr pf pr < pes_formula c w sf sr pf' pr') := by
  have hs : 0 < (sf + sr) / 2 := by positivity
  have hD : 0 < c * w * ((sf + sr) / 2) := by positivity
  have hP : 0 < 1 + (pf + pr) / 2 / 30 := by positivity
  refine ⟨?_, ?_, ?_, ?_, ?_, ?_⟩
  · simp only [compute_pes, rawOfRecord, numVal?, pes_formula]
    rw [if_neg hD.ne']
  · unfold pes_formula
    positivity
  · intro c' hcc'
    unfold pes_formula
    exact mul_lt_mul_of_pos_right
      (one_div_lt_one_div_of_lt hD
        (mul_lt_mul_of_pos_right (mul_lt_mul_of_pos_right hcc' hw) hs)) hP
  · intro w' hww'
    unfold pes_formula
    exact mul_lt_mul_of_pos_right
      (one_div_lt_one_div_of_lt hD
        (mul_lt_mul_of_pos_right (mul_lt_mul_of_pos_left hww' hc) hs)) hP
  · intro sf' sr' hsf' hsr' hss'
    unfold pes_formula
    exact mul_lt_mul_of_pos_right
      (one_div_lt_one_div_of_lt hD (mul_lt_mul_of_pos_left hss' (mul_pos hc hw))) hP
  · intro pf' pr' hpp'
    unfold pes_formula
    exact mul_lt_mul_of_pos_left (by linarith) (one_div_pos.mpr hD)

/-- Witness for C4 at the record (90, 70, 305, 305, 22, 22): the score is
strictly positive and raising the coolant temperature to 91 strictly
lowers it. -/
theorem pes_monotone_witness :
    0 < pes_formula 90 70 305 305 22 22 ∧
    pes_formula 91 70 305 305 22 22 < pes_formula 90 70 305 305 22 22 :=
  ⟨(pes_monotone 90 70 305 305 22 22 (by norm_num) (by norm_num) (by norm_num)
      (by norm_num) (by norm_num) (by norm_num)).2.1,
   (pes_monotone 90 70 305 305 22 22 (by norm_num) (by norm_num) (by norm_num)
      (by norm_num) (by norm_num) (by norm_num)).2.2.1 91 (by norm_num)⟩

/-- C10: every telemetry field produced by a successful `parse_row` is
either `None` or a nonnegative number (the `([\d.]+)` pattern cannot
capture a minus sign). -/
theorem parse_row_fields_nonneg (text : List Char) (p : ParsedRow)
    (h : parse_row text = .ok p) :
    (p.TirePressure_Front = none ∨ ∃ q, p.TirePressure_Front = some q ∧ 0 ≤ q) ∧
    (p.TirePressure_Rear = none ∨ ∃ q, p.TirePressure_Rear = some q ∧ 0 ≤ q) ∧
    (p.TireSize_Front = none ∨ ∃ q, p.TireSize_Front = some q ∧ 0 ≤ q) ∧
    (p.TireSize_Rear = none ∨ ∃ q, p.TireSize_Rear = some q ∧ 0 ≤ q) ∧
    (p.DriverWeight_kg = none ∨ ∃ q, p.DriverWeight_kg = some q ∧ 0 ≤ q) ∧
    (p.CoolantTemperature_C = none ∨ ∃ q, p.CoolantTemperature_C = some q ∧ 0 ≤ q) := by
  rw [parse_row] at h
  split at h
  case _ a b c d e f g ha hb hc hd he hf hg =>
    injection h with h'
    subst h'
    refine ⟨?_, ?_, ?_, ?_, ?_, ?_⟩
    · rcases a with _ | q
      · exact Or.inl rfl
      · exact Or.inr ⟨q, rfl, extractField_digit_nonneg _ _ _ ha⟩
    · rcases b with _ | q
      · exact Or.inl rfl
      · exact Or.inr ⟨q, rfl, extractField_digit_nonneg _ _ _ hb⟩
    · rcases c with _ | q
      · exact Or.inl rfl
      · exact Or.inr ⟨q, rfl, extractField_digit_nonneg _ _ _ hc⟩
    · rcases d with _ | q
      · exact Or.inl rfl
      · exact Or.inr ⟨q, rfl, extractField_digit_nonneg _ _ _ hd⟩
    · rcases e with _ | q
      · exact Or.inl rfl
      · exact Or.inr ⟨q, rfl, extractField_digit_nonneg _ _ _ he⟩
    · rcases f with _ | q
      · exact Or.inl rfl
      · exact Or.inr ⟨q, rfl, extractField_digit_nonneg _ _ _ hf⟩
  case _ =>
    exact nomatch h

/-- Witness for C10 on a one-field input string. -/
theorem parse_row_fields_nonneg_witness :
    parse_row ("Tire Pressure Front: 9".toList) =
      .ok ⟨some 9, none, none, none, none, none, none⟩ ∧
    ((⟨some 9, none, none, none, none, none, none⟩ : ParsedRow).TirePressure_Front = none ∨
      ∃ q, (⟨some 9, none, none, none, none, none, none⟩ : ParsedRow).TirePressure_Front =
        some q ∧ 0 ≤ q) :=
  ⟨by decide, (parse_row_fields_nonneg ("Tire Pressure Front: 9".toList)
    ⟨some 9, none, none, none, none, none, none⟩ (by decide)).1⟩

/-- On a passage in the serialization format whose tire-size fields are
missing, the pipeline parses `None` sizes, feeds the row straight into
`compute_pes` (score 0) and `suggest_adjustments` (a `None/None` tire
advisory), and completes normally. -/
theorem rag_sizeless_eval (rest : List (List Char)) :
    rag_query_pipeline (sizelessPassage :: rest) = .ok sizelessResult := by
  have hp : parse_row sizelessPassage =
      .ok ⟨some 22, some 22, none, none, some 70, some 90, none⟩ := by decide
  have hc : compute_pes (rawOfParsed ⟨some 22, some 22, none, none, some 70, some 90, none⟩) =
      0 := by decide
  have hs : suggest_adjustmentsRaw ⟨some 22, some 22, none, none, some 70, some 90, none⟩ =
      .ok [Advisory.optimal "Coolant Temperature" 90 85 95,
           Advisory.optimal "Driver Weight" 70 68 72,
           Advisory.adjustTires none none,
           Advisory.optimal "Average Tire Pressure" 22 21.5 22.5] := by
    norm_num [suggest_adjustmentsRaw, format_range, expectNum, Bind.bind, Except.bind,
      Pure.pure, Except.pure]
    exact fun h => nomatch h
  have hl : estimate_lap_time 0 = 180 := by norm_num [estimate_lap_time]
  have hd : calculate_distance_and_speed 180 = some (13.626, 272.52) := by
    norm_num [calculate_distance_and_speed]
  simp only [rag_query_pipeline, hp, hc, hs, hl, hd, sizelessResult]

/-- C8 counterexample: a retrieval passage that fails to parse fully (no
tire sizes) is not surfaced as a "no usable context" condition — the
pipeline feeds the null-size record into the engine and returns normally
with score 0. -/
theorem rag_pipeline_feeds_null_cex :
    rag_query_pipeline [sizelessPassage] = .ok sizelessResult ∧
    sizelessResult.row.TireSize_Front = none ∧
    sizelessResult.row.TireSize_Rear = none ∧
    sizelessResult.pes = 0 :=
  ⟨rag_sizeless_eval [], rfl, rfl, rfl⟩

/-- C8 amended: the pipeline has no "no usable context" condition: an
empty search result raises an uncaught `IndexError`, and a passage with
missing fields is fed directly into `compute_pes` (yielding 0) and
`suggest_adjustments`, completing normally when only the tire sizes are
missing. -/
theorem rag_pipeline_error_behavior :
    rag_query_pipeline [] = .error .indexError ∧
    (∀ rest, rag_query_pipeline (sizelessPassage :: rest) = .ok sizelessResult) ∧
    sizelessResult.pes = 0 ∧
    sizelessResult.suggestions = [Advisory.optimal "Coolant Temperature" 90 85 95,
      Advisory.optimal "Driver Weight" 70 68 72,
      Advisory.adjustTires none none,
      Advisory.optimal "Average Tire Pressure" 22 21.5 22.5] :=
  ⟨rfl, rag_sizeless_eval, rfl, rfl⟩

/-- C7 (amended): for every record each of whose six fields the float
formatter renders as a plain numeral over `[0-9.]` that the float parser
reads back to the original value, and whose `PES` field likewise reads
back, and whose coolant-type string contains no `P`, parsing the
serialized text reproduces all seven numeric fields exactly. -/
theorem roundtrip_plain_numerals (render : ℚ → List Char) (r : Record)
    (ct : List Char) (pes : ℚ)
    (hg : ∀ v ∈ [r.TirePressure_Front, r.TirePressure_Rear, r.TireSize_Front,
                 r.TireSize_Rear, r.DriverWeight_kg, r.CoolantTemperature_C],
          render v ≠ [] ∧ (∀ c ∈ render v, isDigitDot c = true) ∧
          pyFloat? (render v) = some v)
    (hpes : render pes ≠ [] ∧ (∀ c ∈ render pes, isDigitDot c = true) ∧
            pyFloatSci? (render pes) = some pes)
    (hct : ∀ c ∈ ct, ¬ c = 'P') :
    parse_row (row_to_text render r ct pes) =
      .ok ⟨some r.TirePressure_Front, some r.TirePressure_Rear, some r.TireSize_Front,
           some r.TireSize_Rear, some r.DriverWeight_kg, some r.CoolantTemperature_C,
           some pes⟩ := by
  have g1 := hg r.TirePressure_Front (by simp)
  have g2 := hg r.TirePressure_Rear (by simp)
  have g3 := hg r.TireSize_Front (by simp)
  have g4 := hg r.TireSize_Rear (by simp)
  have g5 := hg r.DriverWeight_kg (by simp)
  have g6 := hg r.CoolantTemperature_C (by simp)
  have hnum : ∀ v : ℚ, (∀ c ∈ render v, isDigitDot c = true) →
      ∀ c₀ : Char, isDigitDot c₀ = false → ∀ c ∈ render v, ¬ c = c₀ :=
    fun _ hv _ h0 c hc => digitdot_ne (hv c hc) h0
  have e1 : re_search isDigitDot litTPF (row_to_text render r ct pes) =
      some (render r.TirePressure_Front) := by
    rw [row_to_text]
    exact re_search_found isDigitDot litTPF _ _ (by decide) g1.1 g1.2.1
      (head_false_of_cons isDigitDot (" bar, ".toList) _ ' ' rfl (by decide))
  have e2 : re_search isDigitDot litTPR (row_to_text render r ct pes) =
      some (render r.TirePressure_Rear) := by
    rw [row_to_text,
      re_search_append_skip isDigitDot litTPR litTPF _ (by decide),
      re_search_skip_of_head_ne isDigitDot litTPR (render r.TirePressure_Front) _ 'T'
        (by decide) (hnum _ g1.2.1 'T' (by decide)),
      re_search_append_skip isDigitDot litTPR (" bar, ".toList) _ (by decide)]
    exact re_search_found isDigitDot litTPR _ _ (by decide) g2.1 g2.2.1
      (head_false_of_cons isDigitDot (" bar, ".toList) _ ' ' rfl (by decide))
  have e3 : re_search isDigitDot litTSF (row_to_text render r ct pes) =
      some (render r.TireSize_Front) := by
    rw [row_to_text,
      re_search_append_skip isDigitDot litTSF litTPF _ (by decide),
      re_search_skip_of_head_ne isDigitDot litTSF (render r.TirePressure_Front) _ 'T'
        (by decide) (hnum _ g1.2.1 'T' (by decide)),
      re_search_append_skip isDigitDot litTSF (" bar, ".toList) _ (by decide),
      re_search_append_skip isDigitDot litTSF litTPR _ (by decide),
      re_search_skip_of_head_ne isDigitDot litTSF (render r.TirePressure_Rear) _ 'T'
        (by decide) (hnum _ g2.2.1 'T' (by decide)),
      re_search_append_skip isDigitDot litTSF (" bar, ".toList) _ (by decide)]
    exact re_search_found isDigitDot litTSF _ _ (by decide) g3.1 g3.2.1
      (head_false_of_cons isDigitDot (", ".toList) _ ',' rfl (by decide))
  have e4 : re_search isDigitDot litTSR (row_to_text render r ct pes) =
      some (render r.TireSize_Rear) := by
    rw [row_to_text,
      re_search_append_skip isDigitDot litTSR litTPF _ (by decide),
      re_search_skip_of_head_ne isDigitDot litTSR (render r.TirePressure_Front) _ 'T'
        (by decide) (hnum _ g1.2.1 'T' (by decide)),
      re_search_append_skip isDigitDot litTSR (" bar, ".toList) _ (by decide),
      re_search_append_skip isDigitDot litTSR litTPR _ (by decide),
      re_search_skip_of_head_ne isDigitDot litTSR (render r.TirePressure_Rear) _ 'T'
        (by decide) (hnum _ g2.2.1 'T' (by decide)),
      re_search_append_skip isDigitDot litTSR (" bar, ".toList) _ (by decide),
      re_search_append_skip isDigitDot litTSR litTSF _ (by decide),
      re_search_skip_of_head_ne isDigitDot litTSR (render r.TireSize_Front) _ 'T'
        (by decide) (hnum _ g3.2.1 'T' (by decide)),
      re_search_append_skip isDigitDot litTSR (", ".toList) _ (by decide)]
    exact re_search_found isDigitDot litTSR _ _ (by decide) g4.1 g4.2.1
      (head_false_of_cons isDigitDot (", ".toList) _ ',' rfl (by decide))
  have e5 : re_search isDigitDot litDW (row_to_text render r ct pes) =
      some (render r.DriverWeight_kg) := by
    rw [row_to_text,
      re_search_append_skip isDigitDot litDW litTPF _ (by decide),
      re_search_skip_of_head_ne isDigitDot litDW (render r.TirePressure_Front) _ 'D'
        (by decide) (hnum _ g1.2.1 'D' (by decide)),
      re_search_append_skip isDigitDot litDW (" bar, ".toList) _ (by decide),
      re_search_append_skip isDigitDot litDW litTPR _ (by decide),
      re_search_skip_of_head_ne isDigitDot litDW (render r.TirePressure_Rear) _ 'D'
        (by decide) (hnum _ g2.2.1 'D' (by decide)),
      re_search_append_skip isDigitDot litDW (" bar, ".toList) _ (by decide),
      re_search_append_skip isDigitDot litDW litTSF _ (by decide),
      re_search_skip_of_head_ne isDigitDot litDW (render r.TireSize_Front) _ 'D'
        (by decide) (hnum _ g3.2.1 'D' (by decide)),
      re_search_append_skip isDigitDot litDW (", ".toList) _ (by decide),
      re_search_append_skip isDigitDot litDW litTSR _ (by decide),
      re_search_skip_of_head_ne isDigitDot litDW (render r.TireSize_Rear) _ 'D'
        (by decide) (hnum _ g4.2.1 'D' (by decide)),
      re_search_append_skip isDigitDot litDW (", ".toList) _ (by decide)]
    exact re_search_found isDigitDot litDW _ _ (by decide) g5.1 g5.2.1
      (head_false_of_cons isDigitDot (" kg, ".toList) _ ' ' rfl (by decide))
  have e6 : re_search isDigitDot litCT (row_to_text render r ct pes) =
      some (render r.CoolantTemperature_C) := by
    rw [row_to_text,
      re_search_append_skip isDigitDot litCT litTPF _ (by decide),
      re_search_skip_of_head_ne isDigitDot litCT (render r.TirePressure_Front) _ 'C'
        (by decide) (hnum _ g1.2.1 'C' (by decide)),
      re_search_append_skip isDigitDot litCT (" bar, ".toList) _ (by decide),
      re_search_append_skip isDigitDot litCT litTPR _ (by decide),
      re_search_skip_of_head_ne isDigitDot litCT (render r.TirePressure_Rear) _ 'C'
        (by decide) (hnum _ g2.2.1 'C' (by decide)),
      re_search_append_skip isDigitDot litCT (" bar, ".toList) _ (by decide),
      re_search_append_skip isDigitDot litCT litTSF _ (by decide),
      re_search_skip_of_head_ne isDigitDot litCT (render r.TireSize_Front) _ 'C'
        (by decide) (hnum _ g3.2.1 'C' (by decide)),
      re_search_append_skip isDigitDot litCT (", ".toList) _ (by decide),
      re_search_append_skip isDigitDot litCT litTSR _ (by decide),
      re_search_skip_of_head_ne isDigitDot litCT (render r.TireSize_Rear) _ 'C'
        (by decide) (hnum _ g4.2.1 'C' (by decide)),
      re_search_append_skip isDigitDot litCT (", ".toList) _ (by decide),
      re_search_append_skip isDigitDot litCT litDW _ (by decide),
      re_search_skip_of_head_ne isDigitDot litCT (render r.DriverWeight_kg) _ 'C'
        (by decide) (hnum _ g5.2.1 'C' (by decide)),
      re_search_append_skip isDigitDot litCT (" kg, ".toList) _ (by decide)]
    exact re_search_found isDigitDot litCT _ _ (by decide) g6.1 g6.2.1
      (head_false_of_cons isDigitDot (" °C, ".toList) _ ' ' rfl (by decide))
  have e7 : re_search isPESChar litPES (row_to_text render r ct pes) =
      some (render pes) := by
    rw [row_to_text,
      re_search_append_skip isPESChar litPES litTPF _ (by decide),
      re_search_skip_of_head_ne isPESChar litPES (render r.TirePressure_Front) _ 'P'
        (by decide) (hnum _ g1.2.1 'P' (by decide)),
      re_search_append_skip isPESChar litPES (" bar, ".toList) _ (by decide),
      re_search_append_skip isPESChar litPES litTPR _ (by decide),
      re_search_skip_of_head_ne isPESChar litPES (render r.TirePressure_Rear) _ 'P'
        (by decide) (hnum _ g2.2.1 'P' (by decide)),
      re_search_append_skip isPESChar litPES (" bar, ".toList) _ (by decide),
      re_search_append_skip isPESChar litPES litTSF _ (by decide),
      re_search_skip_of_head_ne isPESChar litPES (render r.TireSize_Front) _ 'P'
        (by decide) (hnum _ g3.2.1 'P' (by decide)),
      re_search_append_skip isPESChar litPES (", ".toList) _ (by decide),
      re_search_append_skip isPESChar litPES litTSR _ (by decide),
      re_search_skip_of_head_ne isPESChar litPES (render r.TireSize_Rear) _ 'P'
        (by decide) (hnum _ g4.2.1 'P' (by decide)),
      re_search_append_skip isPESChar litPES (", ".toList) _ (by decide),
      re_search_append_skip isPESChar litPES litDW _ (by decide),
      re_search_skip_of_head_ne isPESChar litPES (render r.DriverWeight_kg) _ 'P'
        (by decide) (hnum _ g5.2.1 'P' (by decide)),
      re_search_append_skip isPESChar litPES (" kg, ".toList) _ (by decide),
      re_search_append_skip isPESChar litPES litCT _ (by decide),
      re_search_skip_of_head_ne isPESChar litPES (render r.CoolantTemperature_C) _ 'P'
        (by decide) (hnum _ g6.2.1 'P' (by decide)),
      re_search_append_skip isPESChar litPES (" °C, ".toList) _ (by decide),
      re_search_append_skip isPESChar litPES ("Coolant Type: ".toList) _ (by decide),
      re_search_skip_of_head_ne isPESChar litPES ct _ 'P' (by decide) hct,
      re_search_append_skip isPESChar litPES (", ".toList) _ (by decide)]
    nth_rewrite 1 [← List.append_nil (render pes)]
    exact re_search_found isPESChar litPES _ _ (by decide) hpes.1
      (fun c hc => digitdot_pes c (hpes.2.1 c hc)) (fun c hc => nomatch hc)
  exact parse_row_eq _ _ _ _ _ _ _ _
    (extractField_eq_of _ _ _ _ _ _ e1 g1.2.2)
    (extractField_eq_of _ _ _ _ _ _ e2 g2.2.2)
    (extractField_eq_of _ _ _ _ _ _ e3 g3.2.2)
    (extractField_eq_of _ _ _ _ _ _ e4 g4.2.2)
    (extractField_eq_of _ _ _ _ _ _ e5 g5.2.2)
    (extractField_eq_of _ _ _ _ _ _ e6 g6.2.2)
    (extractField_eq_of _ _ _ _ _ _ e7 hpes.2.2)

/-- Witness for the amended C7 at the record (22, 22, 305, 305, 70, 90)
with coolant type `Water` and PES 90, rendered by `pyStr`. -/
theorem roundtrip_plain_numerals_witness :
    parse_row (row_to_text pyStr ⟨22, 22, 305, 305, 70, 90⟩ "Water".toList 90) =
      .ok ⟨some 22, some 22, some 305, some 305, some 70, some 90, some 90⟩ := by
  have hv22 : pyFloat? (pyStr 22) = some 22 := by
    rw [show pyStr (22 : ℚ) = "22.0".toList from by decide,
      pyFloat?_two "22.0".toList ['2', '2'] ['0'] (by decide) (by decide) 22 0 1
        (by decide) (by decide) (by decide)]
    norm_num
  have hv305 : pyFloat? (pyStr 305) = some 305 := by
    rw [show pyStr (305 : ℚ) = "305.0".toList from by decide,
      pyFloat?_two "305.0".toList ['3', '0', '5'] ['0'] (by decide) (by decide) 305 0 1
        (by decide) (by decide) (by decide)]
    norm_num
  have hv70 : pyFloat? (pyStr 70) = some 70 := by
    rw [show pyStr (70 : ℚ) = "70.0".toList from by decide,
      pyFloat?_two "70.0".toList ['7', '0'] ['0'] (by decide) (by decide) 70 0 1
        (by decide) (by decide) (by decide)]
    norm_num
  have hv90 : pyFloat? (pyStr 90) = some 90 := by
    rw [show pyStr (90 : ℚ) = "90.0".toList from by decide,
      pyFloat?_two "90.0".toList ['9', '0'] ['0'] (by decide) (by decide) 90 0 1
        (by decide) (by decide) (by decide)]
    norm_num
  have hsci90 : pyFloatSci? (pyStr 90) = some 90 := by
    rw [show pyStr (90 : ℚ) = "90.0".toList from by decide,
      pyFloatSci?_plain _ (by decide) (by decide),
      pyFloat?_two "90.0".toList ['9', '0'] ['0'] (by decide) (by decide) 90 0 1
        (by decide) (by decide) (by decide)]
    norm_num
  exact roundtrip_plain_numerals pyStr ⟨22, 22, 305, 305, 70, 90⟩ "Water".toList 90
    (by
      intro v hv
      simp only [List.mem_cons, List.not_mem_nil, or_false] at hv
      rcases hv with rfl | rfl | rfl | rfl | rfl | rfl
      · exact ⟨by decide, by decide, hv22⟩
      · exact ⟨by decide, by decide, hv22⟩
      · exact ⟨by decide, by decide, hv305⟩
      · exact ⟨by decide, by decide, hv305⟩
      · exact ⟨by decide, by decide, hv70⟩
      · exact ⟨by decide, by decide, hv90⟩)
    ⟨by decide, by decide, hsci90⟩
    (by decide)

/-- C7 counterexample: on the record whose front tire pressure is the
negative number -22, Python renders `-22.0`, the `([\d.]+)` pattern
cannot match after the field label (the next character is the minus
sign), and the parsed field comes back `None` instead of -22. -/
theorem roundtrip_negative_cex :
    row_to_text pyStr ⟨-22, 22, 305, 305, 70, 90⟩ "Water".toList 0 = cexText ∧
    parse_row cexText =
      .ok ⟨none, some 22, some 305, some 305, some 70, some 90, some 0⟩ ∧
    (⟨-22, 22, 305, 305, 70, 90⟩ : Record).TirePressure_Front = -22 := by
  have hv22 : pyFloat? ("22.0".toList) = some 22 := by
    rw [pyFloat?_two "22.0".toList ['2', '2'] ['0'] (by decide) (by decide) 22 0 1
      (by decide) (by decide) (by decide)]
    norm_num
  have hv305 : pyFloat? ("305.0".toList) = some 305 := by
    rw [pyFloat?_two "305.0".toList ['3', '0', '5'] ['0'] (by decide) (by decide) 305 0 1
      (by decide) (by decide) (by decide)]
    norm_num
  have hv70 : pyFloat? ("70.0".toList) = some 70 := by
    rw [pyFloat?_two "70.0".toList ['7', '0'] ['0'] (by decide) (by decide) 70 0 1
      (by decide) (by decide) (by decide)]
    norm_num
  have hv90 : pyFloat? ("90.0".toList) = some 90 := by
    rw [pyFloat?_two "90.0".toList ['9', '0'] ['0'] (by decide) (by decide) 90 0 1
      (by decide) (by decide) (by decide)]
    norm_num
  have hv0 : pyFloatSci? ("0.0".toList) = some 0 := by
    rw [pyFloatSci?_plain _ (by decide) (by decide),
      pyFloat?_two "0.0".toList ['0'] ['0'] (by decide) (by decide) 0 0 1
        (by decide) (by decide) (by decide)]
    norm_num
  refine ⟨by decide, ?_, rfl⟩
  exact parse_row_eq cexText none (some 22) (some 305) (some 305) (some 70) (some 90)
    (some 0)
    (extractField_none_of _ _ _ _ (by decide))
    (extractField_eq_of _ _ _ _ _ _ (by decide) hv22)
    (extractField_eq_of _ _ _ _ _ _ (by decide) hv305)
    (extractField_eq_of _ _ _ _ _ _ (by decide) hv305)
    (extractField_eq_of _ _ _ _ _ _ (by decide) hv70)
    (extractField_eq_of _ _ _ _ _ _ (by decide) hv90)
    (extractField_eq_of _ _ _ _ _ _ (by decide) hv0)

end PES
